import Mathlib

/-!
Verification of the orchestration-and-recovery control loop of the
coding-agent repository.  The definitions below are a shallow embedding of
`main.py` and `code_generator/sandbox.py`: external collaborators (the LLM
oracles, the subprocess layer, the human channel, JSON serialization) are
passed in as function parameters, and the control flow of the source is
translated directly.
-/

namespace CodingAgent

/-- A generated file, from `CodeFile` in `sandbox.py`: a workspace-relative
path together with its full text content. -/
structure CodeFile where
  relative_path : String
  content : String
deriving Repr, DecidableEq

/-- The outcome of a command executed in Docker, from `ExecutionResult`
in `sandbox.py`. -/
structure ExecutionResult where
  exit_code : Int
  stdout : String
  stderr : String
  timed_out : Bool := false
deriving Repr, DecidableEq

/-- `ExecutionResult.was_successful` from `sandbox.py`: the property returns
`self.exit_code == 0`. -/
def ExecutionResult.was_successful (r : ExecutionResult) : Bool :=
  r.exit_code == 0

/-- The possible outcomes of the underlying `subprocess.run` call inside
`DockerSandbox.run`: normal completion with a return code and captured
output, a `TimeoutExpired` exception carrying optional partial output, or
any other exception rendered as a message. -/
inductive SubprocessOutcome where
  | completed (returncode : Int) (stdout stderr : String)
  | timedOut (stdout stderr : Option String)
  | failed (msg : String)
deriving Repr, DecidableEq

/-- The stderr text substituted on timeout when no partial stderr was
captured, from the f-string in `DockerSandbox.run`. -/
def timeoutMessage (timeout : Nat) : String :=
  "Execution timed out after " ++ toString timeout ++ " seconds."

/-- The `try/except` tail of `DockerSandbox.run`: how each subprocess
outcome is converted into an `ExecutionResult`. -/
def runOutcome (timeout : Nat) (o : SubprocessOutcome) : ExecutionResult :=
  match o with
  | .completed rc out err =>
      { exit_code := rc, stdout := out, stderr := err, timed_out := false }
  | .timedOut out err =>
      { exit_code := -1, stdout := out.getD "",
        stderr := err.getD (timeoutMessage timeout), timed_out := true }
  | .failed msg =>
      { exit_code := -1, stdout := "", stderr := msg, timed_out := false }

/-- A pure path: an absolute-path flag plus a list of segments, modelling
`pathlib` paths as used by the sandbox. -/
structure PurePath where
  absolute : Bool
  segments : List String
deriving Repr, DecidableEq

/-- Path join, modelling Python `Path(p) / q`: an absolute right operand
replaces the left operand entirely; otherwise the segments concatenate. -/
def PurePath.join (p q : PurePath) : PurePath :=
  if q.absolute then q else ⟨p.absolute, p.segments ++ q.segments⟩

/-- Splits a character list on the path separator. -/
def splitSegsAux : List Char → List Char → List (List Char)
  | [], cur => [cur.reverse]
  | c :: cs, cur =>
      if c = '/' then cur.reverse :: splitSegsAux cs []
      else splitSegsAux cs (c :: cur)

/-- Splits a string into path segments on the path separator. -/
def splitSegs (s : String) : List String :=
  (splitSegsAux s.data []).map (fun cs => String.mk cs)

/-- Whether a path string is absolute. -/
def startsSlash (s : String) : Bool :=
  match s.data with
  | [] => false
  | c :: _ => c == '/'

/-- Parses a path string the way `pathlib` normalizes it: empty and
single-dot segments are dropped, a leading separator marks the path
absolute.  Double-dot segments are kept (pathlib does not resolve them). -/
def parsePath (s : String) : PurePath :=
  ⟨startsSlash s, (splitSegs s).filter (fun seg => seg != "" && seg != ".")⟩

/-- One step of filesystem-level resolution: a double-dot segment removes
the previous segment, any other segment is appended. -/
def resolveStep (acc : List String) (seg : String) : List String :=
  if seg = ".." then acc.dropLast else acc ++ [seg]

/-- Filesystem-level resolution of the segments of an absolute path,
eliminating double-dot segments the way the OS does when a file is
written at the path. -/
def resolveSegments (segs : List String) : List String :=
  segs.foldl resolveStep []

/-- Resolves a path at the filesystem level. -/
def PurePath.osResolve (p : PurePath) : PurePath :=
  ⟨p.absolute, resolveSegments p.segments⟩

/-- Whether the first segment list is an initial run of the second. -/
def segsUnder : List String → List String → Bool
  | [], _ => true
  | _ :: _, [] => false
  | a :: as, b :: bs => a == b && segsUnder as bs

/-- Whether path `p` lies inside directory `ws`. -/
def PurePath.insideOf (p ws : PurePath) : Bool :=
  (p.absolute == ws.absolute) && segsUnder ws.segments p.segments

/-- `DockerSandbox.__enter__` materializes each file at
`self.workspace_path / code_file.relative_path` with no validation; this
function returns the filesystem locations those writes actually land at,
after OS-level resolution. -/
def enterWriteTargets (ws : PurePath) (files : List CodeFile) : List PurePath :=
  files.map (fun f => (ws.join (parsePath f.relative_path)).osResolve)

/-- The Docker image name constant of `DockerSandbox`. -/
def DOCKER_IMAGE_NAME : String := "python-uv-image"

/-- The argument vector `DockerSandbox.run` hands to `subprocess.run`,
including the optional `--user` flags added on posix hosts. -/
def dockerRunCommand (hostPath command : String)
    (posixUser : Option (Nat × Nat)) : List String :=
  ["docker", "run", "--rm", "--volume=" ++ hostPath ++ ":/app"] ++
    (match posixUser with
     | some (u, g) => ["--user", toString u ++ ":" ++ toString g]
     | none => []) ++
    [DOCKER_IMAGE_NAME, "bash", "-c", command]

/-- Renders a pure path back to a string. -/
def renderPath (p : PurePath) : String :=
  (if p.absolute then "/" else "") ++ String.intercalate "/" p.segments

/-- The in-memory state of a `DockerSandbox`: the files, the command, and
the workspace path, which is `none` until `__enter__` runs. -/
structure DockerSandbox where
  files : List CodeFile
  command : String
  workspace_path : Option PurePath
deriving Repr, DecidableEq

/-- The exception `DockerSandbox.run` raises when called outside a
`with` block. -/
inductive SandboxError where
  | typeError
deriving Repr, DecidableEq

/-- `DockerSandbox.run`: if the workspace path is unset the call raises a
`TypeError` without touching the subprocess layer; otherwise it issues
exactly one docker invocation and converts its outcome.  The second
component of the result is the list of argument vectors actually handed
to `subprocess.run`. -/
def DockerSandbox.run (sb : DockerSandbox) (timeout : Nat)
    (posixUser : Option (Nat × Nat)) (subproc : SubprocessOutcome) :
    Except SandboxError ExecutionResult × List (List String) :=
  match sb.workspace_path with
  | none => (.error .typeError, [])
  | some ws =>
      (.ok (runOutcome timeout subproc),
       [dockerRunCommand (renderPath ws) sb.command posixUser])

/-- C1 (counterexample): the outcome value with exit code 0 and the
timed-out flag set is reported successful by `was_successful`, so the
claimed equivalence `was_successful = (exit code 0 AND not timed out)`
fails on this value. -/
theorem c1_counterexample :
    (ExecutionResult.mk 0 "" "" true).was_successful = true ∧
    ¬((ExecutionResult.mk 0 "" "" true).was_successful = true ↔
        ((ExecutionResult.mk 0 "" "" true).exit_code = 0 ∧
         (ExecutionResult.mk 0 "" "" true).timed_out = false)) := by
  constructor
  · rfl
  · decide

/-- C1 (amended): `was_successful` is true exactly when the exit code is 0
and does not consult the timed-out flag; however, every timed-out outcome
actually produced by `DockerSandbox.run` carries exit code -1, so those
outcomes are never reported successful. -/
theorem c1_success_iff_exit_zero :
    (∀ r : ExecutionResult, r.was_successful = true ↔ r.exit_code = 0) ∧
    (∀ (timeout : Nat) (out err : Option String),
      (runOutcome timeout (SubprocessOutcome.timedOut out err)).was_successful
        = false) := by
  constructor
  · intro r
    simp [ExecutionResult.was_successful]
  · intro timeout out err
    rfl

/-- C10: calling `run` on a sandbox whose workspace path is unset (i.e.
outside the `with` block) raises a `TypeError` and issues no subprocess
invocation, while a sandbox with a materialized workspace issues exactly
one docker invocation. -/
theorem c10_run_requires_workspace (files : List CodeFile) (command : String)
    (timeout : Nat) (posixUser : Option (Nat × Nat))
    (subproc : SubprocessOutcome) :
    (DockerSandbox.mk files command none).run timeout posixUser subproc =
      (.error .typeError, []) ∧
    ∀ ws : PurePath,
      (DockerSandbox.mk files command (some ws)).run timeout posixUser subproc =
        (.ok (runOutcome timeout subproc),
         [dockerRunCommand (renderPath ws) command posixUser]) := by
  constructor
  · rfl
  · intro ws
    rfl

/-- Folding the resolution step over segments that contain no double-dot
segment simply appends them. -/
theorem resolveSegments_no_dotdot (l : List String) (hnd : ".." ∉ l) :
    ∀ acc : List String, l.foldl resolveStep acc = acc ++ l := by
  induction l with
  | nil => intro acc; simp
  | cons a l ih =>
      intro acc
      have ha : a ≠ ".." := by
        intro h
        exact hnd (h ▸ List.mem_cons_self a l)
      have hl : ".." ∉ l := fun h => hnd (List.mem_cons_of_mem a h)
      simp only [List.foldl_cons, resolveStep, if_neg ha]
      rw [ih hl]
      simp

/-- A segment list is always an initial run of itself extended on the
right. -/
theorem segsUnder_append (l r : List String) : segsUnder l (l ++ r) = true := by
  induction l with
  | nil => rfl
  | cons a l ih => simp [segsUnder, ih]

/-- C4 (counterexample): a file whose relative path contains a `..`
segment is materialized outside the session workspace: in the workspace
`/tmp/gemini_workspace_abc` the artifact `../escape.txt` lands at
`/tmp/escape.txt`, which is not inside the workspace root. -/
theorem c4_counterexample :
    PurePath.insideOf
      ((enterWriteTargets ⟨true, ["tmp", "gemini_workspace_abc"]⟩
          [⟨"../escape.txt", "owned"⟩]).headD ⟨false, []⟩)
      ⟨true, ["tmp", "gemini_workspace_abc"]⟩ = false := by
  decide

/-- C4 (amended): `__enter__` materializes each file at the plain join of
the workspace root and the file's relative path, with no traversal check.
When the parsed relative path is not absolute and contains no `..`
segment, and the workspace root itself is an absolute path free of `..`
segments, the write target resolves inside the workspace; a `..` segment
or an absolute artifact path can escape it. -/
theorem c4_clean_paths_stay_inside (ws : PurePath) (files : List CodeFile)
    (hwsClean : ".." ∉ ws.segments)
    (hfiles : ∀ f ∈ files, (parsePath f.relative_path).absolute = false ∧
        ".." ∉ (parsePath f.relative_path).segments) :
    ∀ p ∈ enterWriteTargets ws files, p.insideOf ws = true := by
  intro p hp
  rcases List.mem_map.mp hp with ⟨f, hf, rfl⟩
  rcases hfiles f hf with ⟨habs, hnd⟩
  have hjoin : ws.join (parsePath f.relative_path) =
      ⟨ws.absolute, ws.segments ++ (parsePath f.relative_path).segments⟩ := by
    unfold PurePath.join
    rw [habs]
    simp
  have hcat : ".." ∉ ws.segments ++ (parsePath f.relative_path).segments := by
    intro h
    rcases List.mem_append.mp h with h | h
    · exact hwsClean h
    · exact hnd h
  unfold PurePath.osResolve
  rw [hjoin]
  unfold PurePath.insideOf
  simp only [resolveSegments, resolveSegments_no_dotdot _ hcat, List.nil_append]
  simp [segsUnder_append]

/-- C4 witness: a concrete artifact set whose relative paths are clean is
materialized entirely inside a concrete workspace. -/
theorem c4_witness :
    (".." ∉ (⟨true, ["tmp", "gemini_workspace_xyz"]⟩ : PurePath).segments) ∧
    (∀ f ∈ [CodeFile.mk "src/main.py" "code", CodeFile.mk "requirements.txt" ""],
      (parsePath f.relative_path).absolute = false ∧
        ".." ∉ (parsePath f.relative_path).segments) ∧
    ∀ p ∈ enterWriteTargets ⟨true, ["tmp", "gemini_workspace_xyz"]⟩
        [CodeFile.mk "src/main.py" "code", CodeFile.mk "requirements.txt" ""],
      p.insideOf ⟨true, ["tmp", "gemini_workspace_xyz"]⟩ = true :=
  ⟨by decide, by decide,
   c4_clean_paths_stay_inside _ _ (by decide) (by decide)⟩

/-- The output of the code-producing oracle, from `CodeAgentOutput` in
`coding_agent.py`: a complete file set plus a rationale string. -/
structure CodeAgentOutput where
  files : List CodeFile
  reasoning : String
deriving Repr, DecidableEq

/-- The input to the code-producing oracle, from `CodeAgentInput` in
`coding_agent.py`. -/
structure CodeAgentInput where
  prompt : String
  command : String
  previous_result : Option CodeAgentOutput
  execution_feedback : Option String
deriving Repr, DecidableEq

/-- The checkpoint payload, from the `Checkpoint` pydantic model in
`main.py`. -/
structure Checkpoint where
  objective : String
  history : List String
  latest_code : Option CodeAgentOutput
  execution_feedback : Option String
  orchestrator_step : Nat
deriving Repr, DecidableEq

/-- A primitive filesystem operation, used to give crash-observable
semantics to the checkpoint write. -/
inductive FsOp where
  | openTrunc (path : String)
  | writeData (path : String) (data : String)
  | closeFile (path : String)
  | rename (src dst : String)
deriving Repr, DecidableEq

/-- `Checkpoint.save` from `main.py`: `open(path, "w")` truncates the
target file in place, `json.dump` writes the serialized state into it,
and the file is closed.  Serialization is an external-library collaborator
and is passed in as the already-rendered string. -/
def checkpointSaveTrace (path serialized : String) : List FsOp :=
  [.openTrunc path, .writeData path serialized, .closeFile path]

/-- A filesystem: a map from path to file content, `none` meaning the
file does not exist. -/
def Fs := String → Option String

/-- The effect of one primitive operation on a filesystem. -/
def applyOp (fs : Fs) (op : FsOp) : Fs :=
  match op with
  | .openTrunc p => fun q => if q = p then some "" else fs q
  | .writeData p d => fun q => if q = p then some (((fs p).getD "") ++ d) else fs q
  | .closeFile _ => fs
  | .rename src dst => fun q =>
      if q = dst then fs src else if q = src then none else fs q

/-- The effect of a sequence of primitive operations on a filesystem. -/
def applyOps (fs : Fs) (ops : List FsOp) : Fs :=
  ops.foldl applyOp fs

/-- Atomicity of a write sequence with respect to a crash, as the spec
demands of `save`: at every crash point (every prefix of the operation
sequence) a reader of `path` sees either the old content or the complete
new content, never anything in between. -/
def atomicSave (fs : Fs) (ops : List FsOp) (path : String)
    (newContent : String) : Prop :=
  ∀ k, applyOps fs (ops.take k) path = fs path ∨
    applyOps fs (ops.take k) path = some newContent

/-- C3 (counterexample): the checkpoint write is not atomic: starting from
a file holding "OLD", a crash between the truncating open and the write
exposes an empty file, which is neither the old nor the new state. -/
theorem c3_counterexample :
    ¬ atomicSave (fun q => if q = "checkpoint.json" then some "OLD" else none)
      (checkpointSaveTrace "checkpoint.json" "NEW") "checkpoint.json" "NEW" := by
  intro h
  have h1 := h 1
  simp only [checkpointSaveTrace, List.take, applyOps, List.foldl, applyOp,
    if_pos rfl] at h1
  rcases h1 with h1 | h1 <;> simp at h1

/-- C3 (amended): `Checkpoint.save` performs a direct truncating write to
the checkpoint path, not a write-to-temp-then-rename: the final state
holds the full serialized payload, the intermediate crash-observable
state right after the truncating open is an empty file, and no rename
operation occurs anywhere in the sequence. -/
theorem c3_save_not_atomic (fs : Fs) (path data : String) :
    applyOps fs (checkpointSaveTrace path data) path = some data ∧
    applyOps fs ((checkpointSaveTrace path data).take 1) path = some "" ∧
    ∀ op ∈ checkpointSaveTrace path data, ∀ src dst, op ≠ FsOp.rename src dst := by
  refine ⟨?_, ?_, ?_⟩
  · simp only [checkpointSaveTrace, applyOps, List.foldl, applyOp, if_pos rfl]
    simp [Option.getD]
  · simp only [checkpointSaveTrace, List.take, applyOps, List.foldl, applyOp,
      if_pos rfl]
    simp
  · intro op hop src dst
    simp only [checkpointSaveTrace, List.mem_cons, List.mem_singleton] at hop
    rcases hop with rfl | rfl | rfl | h <;> simp_all

/-- The attempt budget constant `MAX_CODE_AGENT_ATTEMPTS` from `main.py`. -/
def MAX_CODE_AGENT_ATTEMPTS : Nat := 5

/-- The step budget constant `MAX_ORCHESTRATOR_STEPS` from `main.py`. -/
def MAX_ORCHESTRATOR_STEPS : Nat := 25

/-- The fixed base execution command from `main.py`. -/
def EXECUTION_COMMAND : String :=
  "python3 -m venv .venv && " ++
  ". .venv/bin/activate && " ++
  "uv pip install --no-cache -r requirements.txt && " ++
  "uv pip install --no-cache -q pytest && " ++
  "pytest -p no:cacheprovider -v"

/-- The failure feedback format from `_handle_code_generation_action`:
the f-string over the failing run's stdout and stderr. -/
def formatFeedback (r : ExecutionResult) : String :=
  "STDOUT:\n" ++ r.stdout ++ "\n\nSTDERR:\n" ++ r.stderr

/-- The `for attempt in range(1, MAX_CODE_AGENT_ATTEMPTS + 1)` loop of
`_handle_code_generation_action`.  The code-producing oracle and the
sandbox executor are external collaborators, indexed by the attempt
number to capture their per-call nondeterminism.  The first argument of
the recursion is the number of attempts still available, the second the
current attempt number.  The result carries the returned triple
`(was_successful, latest_code, execution_feedback)` together with the
list of attempt numbers at which the sandbox (and, in lockstep, the
generation oracle) was invoked. -/
def codeGenLoop (codeAgent : Nat → CodeAgentInput → CodeAgentOutput)
    (sandboxExec : Nat → List CodeFile → String → ExecutionResult)
    (prompt command : String) :
    Nat → Nat → Option CodeAgentOutput → Option String →
    (Bool × Option CodeAgentOutput × Option String) × List Nat
  | 0, _, latest, feedback => ((false, latest, feedback), [])
  | remaining + 1, attempt, latest, feedback =>
      let output := codeAgent attempt
        ⟨prompt, command, latest, feedback⟩
      let result := sandboxExec attempt output.files command
      if result.was_successful then
        ((true, some output, none), [attempt])
      else
        let rest := codeGenLoop codeAgent sandboxExec prompt command
          remaining (attempt + 1) (some output)
          (some (formatFeedback result))
        (rest.1, attempt :: rest.2)

/-- `Application._handle_code_generation_action` from `main.py`: runs the
retry loop starting at attempt 1 with the given attempt budget, seeded
with the application's current latest code and execution feedback. -/
def handleCodeGenerationAction
    (codeAgent : Nat → CodeAgentInput → CodeAgentOutput)
    (sandboxExec : Nat → List CodeFile → String → ExecutionResult)
    (prompt command : String) (maxAttempts : Nat)
    (latest : Option CodeAgentOutput) (feedback : Option String) :
    (Bool × Option CodeAgentOutput × Option String) × List Nat :=
  codeGenLoop codeAgent sandboxExec prompt command maxAttempts 1 latest feedback

/-- C5 (counterexample): with an attempt budget of 0 the retry cycle
returns the normal triple `(false, prior artifacts, prior feedback)`
without any error: there is no `ConfigurationError` in the code, and a
zero budget does not fail. -/
theorem c5_counterexample :
    handleCodeGenerationAction (fun _ _ => ⟨[], ""⟩)
      (fun _ _ _ => ⟨0, "", "", false⟩) "p" "c" 0 none none =
      ((false, none, none), []) := rfl

/-- C5 (amended): with an attempt budget of 0 the retry cycle performs no
generation and no sandbox invocation and returns the normal triple
`(false, prior artifacts, prior feedback)`; no `ConfigurationError` (or
any other fault) is raised — the loop body simply never runs. -/
theorem c5_zero_budget_returns_normally
    (codeAgent : Nat → CodeAgentInput → CodeAgentOutput)
    (sandboxExec : Nat → List CodeFile → String → ExecutionResult)
    (prompt command : String)
    (latest : Option CodeAgentOutput) (feedback : Option String) :
    handleCodeGenerationAction codeAgent sandboxExec prompt command 0
      latest feedback = ((false, latest, feedback), []) := rfl

/-- If every attempt in the window `[a, a + j)` fails and attempt `a + j`
succeeds, the retry loop started at attempt `a` with more than `j`
attempts of budget left invokes the sandbox exactly at attempts
`a, …, a + j` and returns success with the artifacts whose execution
succeeded and no feedback. -/
theorem codeGenLoop_first_success
    (codeAgent : Nat → CodeAgentInput → CodeAgentOutput)
    (sandboxExec : Nat → List CodeFile → String → ExecutionResult)
    (prompt command : String) :
    ∀ (j r a : Nat) (latest : Option CodeAgentOutput)
      (feedback : Option String),
      j < r →
      (∀ t, a ≤ t → t < a + j → ∀ files cmd,
        (sandboxExec t files cmd).was_successful = false) →
      (∀ files cmd, (sandboxExec (a + j) files cmd).was_successful = true) →
      ∃ out : CodeAgentOutput,
        codeGenLoop codeAgent sandboxExec prompt command r a latest feedback =
          ((true, some out, none), List.range' a (j + 1)) ∧
        (sandboxExec (a + j) out.files command).was_successful = true := by
  intro j
  induction j with
  | zero =>
      intro r a latest feedback hjr hfail hsucc
      obtain ⟨r', rfl⟩ : ∃ r', r = r' + 1 := ⟨r - 1, by omega⟩
      simp only [Nat.add_zero] at hsucc
      refine ⟨codeAgent a ⟨prompt, command, latest, feedback⟩, ?_, hsucc _ _⟩
      simp [codeGenLoop, hsucc, List.range']
  | succ j ih =>
      intro r a latest feedback hjr hfail hsucc
      obtain ⟨r', rfl⟩ : ∃ r', r = r' + 1 := ⟨r - 1, by omega⟩
      have hfa : ∀ files cmd,
          (sandboxExec a files cmd).was_successful = false :=
        fun files cmd => hfail a (Nat.le_refl a) (by omega) files cmd
      have hsucc' : ∀ files cmd,
          (sandboxExec (a + 1 + j) files cmd).was_successful = true := by
        intro files cmd
        have hadd : a + 1 + j = a + (j + 1) := by omega
        rw [hadd]
        exact hsucc files cmd
      have hfail' : ∀ t, a + 1 ≤ t → t < a + 1 + j → ∀ files cmd,
          (sandboxExec t files cmd).was_successful = false := by
        intro t h1 h2 files cmd
        exact hfail t (by omega) (by omega) files cmd
      obtain ⟨out, heq, hout⟩ := ih r' (a + 1)
        (some (codeAgent a ⟨prompt, command, latest, feedback⟩))
        (some (formatFeedback (sandboxExec a
          (codeAgent a ⟨prompt, command, latest, feedback⟩).files command)))
        (by omega) hfail' hsucc'
      refine ⟨out, ?_, ?_⟩
      · simp only [codeGenLoop, hfa, Bool.false_eq_true, if_false, heq]
        simp [List.range']
      · have hadd : a + 1 + j = a + (j + 1) := by omega
        rw [hadd] at hout
        exact hout

/-- C7: within one invocation of the retry cycle, if every attempt before
`k` fails and attempt `k` succeeds (with `1 ≤ k ≤ MAX_CODE_AGENT_ATTEMPTS`),
the cycle returns `(true, attempt k's artifacts, none)` immediately: the
generation oracle and the sandbox are invoked exactly at attempts
`1, …, k` and never afterwards, and the returned feedback is `none`
regardless of the earlier failures. -/
theorem c7_first_success_short_circuits
    (codeAgent : Nat → CodeAgentInput → CodeAgentOutput)
    (sandboxExec : Nat → List CodeFile → String → ExecutionResult)
    (prompt command : String)
    (latest : Option CodeAgentOutput) (feedback : Option String) (k : Nat)
    (hk1 : 1 ≤ k) (hkN : k ≤ MAX_CODE_AGENT_ATTEMPTS)
    (hfail : ∀ t, 1 ≤ t → t < k → ∀ files cmd,
      (sandboxExec t files cmd).was_successful = false)
    (hsucc : ∀ files cmd, (sandboxExec k files cmd).was_successful = true) :
    ∃ out : CodeAgentOutput,
      handleCodeGenerationAction codeAgent sandboxExec prompt command
        MAX_CODE_AGENT_ATTEMPTS latest feedback =
        ((true, some out, none), List.range' 1 k) ∧
      (sandboxExec k out.files command).was_successful = true := by
  have hks : 1 + (k - 1) = k := by omega
  obtain ⟨out, heq, hout⟩ := codeGenLoop_first_success codeAgent sandboxExec
    prompt command (k - 1) MAX_CODE_AGENT_ATTEMPTS 1 latest feedback
    (by unfold MAX_CODE_AGENT_ATTEMPTS at hkN ⊢; omega)
    (by
      intro t ht1 ht2 files cmd
      exact hfail t ht1 (by omega) files cmd)
    (by
      intro files cmd
      rw [hks]
      exact hsucc files cmd)
  rw [hks] at hout
  have hkk : k - 1 + 1 = k := by omega
  rw [hkk] at heq
  exact ⟨out, heq, hout⟩

/-- The attempt-indexed sandbox collaborator used in the concrete witness
for the first-success theorem: attempt 1 fails, attempt 2 succeeds. -/
def c7WitnessSandbox : Nat → List CodeFile → String → ExecutionResult :=
  fun t _ _ => if t = 2 then ⟨0, "ok", "", false⟩ else ⟨1, "boom", "fail", false⟩

/-- C7 witness: at the concrete collaborators where attempt 1 fails and
attempt 2 succeeds, the cycle stops after exactly two sandbox calls with
no feedback. -/
theorem c7_witness :
    ∃ out : CodeAgentOutput,
      handleCodeGenerationAction (fun _ _ => ⟨[], "r"⟩) c7WitnessSandbox
        "p" "c" MAX_CODE_AGENT_ATTEMPTS none none =
        ((true, some out, none), List.range' 1 2) ∧
      (c7WitnessSandbox 2 out.files "c").was_successful = true :=
  c7_first_success_short_circuits (fun _ _ => ⟨[], "r"⟩) c7WitnessSandbox
    "p" "c" none none 2 (by decide) (by decide)
    (by
      intro t ht1 ht2 files cmd
      have ht : t = 1 := by omega
      subst ht
      rfl)
    (fun files cmd => rfl)

/-- If every attempt in the window `[a, a + r)` fails, the retry loop
started at attempt `a` with budget `r ≥ 1` invokes the sandbox exactly at
attempts `a, …, a + r - 1` and returns failure together with the last
generated artifacts and the feedback formatted from the last failing
run's stdout and stderr. -/
theorem codeGenLoop_all_fail
    (codeAgent : Nat → CodeAgentInput → CodeAgentOutput)
    (sandboxExec : Nat → List CodeFile → String → ExecutionResult)
    (prompt command : String) :
    ∀ (r a : Nat) (latest : Option CodeAgentOutput)
      (feedback : Option String),
      1 ≤ r →
      (∀ t, a ≤ t → t < a + r → ∀ files cmd,
        (sandboxExec t files cmd).was_successful = false) →
      ∃ out : CodeAgentOutput,
        codeGenLoop codeAgent sandboxExec prompt command r a latest feedback =
          ((false, some out,
            some (formatFeedback (sandboxExec (a + r - 1) out.files command))),
           List.range' a r) := by
  intro r
  induction r with
  | zero =>
      intro a latest feedback h1
      omega
  | succ r ih =>
      intro a latest feedback _ hfail
      have hfa : ∀ files cmd,
          (sandboxExec a files cmd).was_successful = false :=
        fun files cmd => hfail a (Nat.le_refl a) (by omega) files cmd
      by_cases hr : r = 0
      · subst hr
        refine ⟨codeAgent a ⟨prompt, command, latest, feedback⟩, ?_⟩
        simp [codeGenLoop, hfa, List.range']
      · have hfail' : ∀ t, a + 1 ≤ t → t < a + 1 + r → ∀ files cmd,
            (sandboxExec t files cmd).was_successful = false := by
          intro t h1 h2 files cmd
          exact hfail t (by omega) (by omega) files cmd
        obtain ⟨out, heq⟩ := ih (a + 1)
          (some (codeAgent a ⟨prompt, command, latest, feedback⟩))
          (some (formatFeedback (sandboxExec a
            (codeAgent a ⟨prompt, command, latest, feedback⟩).files command)))
          (by omega) hfail'
        refine ⟨out, ?_⟩
        simp only [codeGenLoop, hfa, Bool.false_eq_true, if_false, heq]
        have hadd : a + 1 + r - 1 = a + (r + 1) - 1 := by omega
        rw [hadd] at *
        simp [List.range']

/-- C8: with attempt budget `N ≥ 1` and a sandbox executor that fails at
every attempt, the retry cycle invokes the sandbox (and, in lockstep, the
generation oracle) exactly at attempts `1, …, N` — N invocations — and
returns `succeeded = false` together with the last generated artifacts
and the feedback formatted from the last failing run's stdout and
stderr. -/
theorem c8_budget_exhaustion
    (codeAgent : Nat → CodeAgentInput → CodeAgentOutput)
    (sandboxExec : Nat → List CodeFile → String → ExecutionResult)
    (prompt command : String)
    (latest : Option CodeAgentOutput) (feedback : Option String) (N : Nat)
    (hN : 1 ≤ N)
    (hfail : ∀ t, 1 ≤ t → t ≤ N → ∀ files cmd,
      (sandboxExec t files cmd).was_successful = false) :
    ∃ out : CodeAgentOutput,
      handleCodeGenerationAction codeAgent sandboxExec prompt command N
        latest feedback =
        ((false, some out,
          some (formatFeedback (sandboxExec N out.files command))),
         List.range' 1 N) := by
  obtain ⟨out, heq⟩ := codeGenLoop_all_fail codeAgent sandboxExec
    prompt command N 1 latest feedback hN
    (by
      intro t ht1 ht2 files cmd
      exact hfail t ht1 (by omega) files cmd)
  have hNN : 1 + N - 1 = N := by omega
  rw [hNN] at heq
  exact ⟨out, heq⟩

/-- C8 witness: at concrete collaborators whose execution always fails,
the cycle with the code's budget of 5 performs exactly five sandbox calls
and returns failure with the formatted feedback of the last run. -/
theorem c8_witness :
    ∃ out : CodeAgentOutput,
      handleCodeGenerationAction (fun _ _ => ⟨[], "r"⟩)
        (fun _ _ _ => ⟨1, "o", "e", false⟩) "p" "c"
        MAX_CODE_AGENT_ATTEMPTS none none =
        ((false, some out,
          some (formatFeedback (⟨1, "o", "e", false⟩ : ExecutionResult))),
         List.range' 1 MAX_CODE_AGENT_ATTEMPTS) :=
  c8_budget_exhaustion (fun _ _ => ⟨[], "r"⟩)
    (fun _ _ _ => ⟨1, "o", "e", false⟩) "p" "c" none none
    MAX_CODE_AGENT_ATTEMPTS (by decide)
    (fun t ht1 ht2 files cmd => rfl)

/-- The decision-oracle input, from `OrchestratorInput` in
`orchestrator.py`. -/
structure OrchestratorInput where
  objective : String
  history : List String
deriving Repr, DecidableEq

/-- The decision-oracle output, from `OrchestratorOutput` in
`orchestrator.py`: the chosen agent name and its argument dictionary
(modelled as an association list of string keys and values). -/
structure OrchestratorOutput where
  agent_name : String
  args : List (String × String)
deriving Repr, DecidableEq

/-- Dictionary lookup on the argument association list, modelling
`agent_args[k]` / `agent_args.get(k, default)`. -/
def lookupArg (args : List (String × String)) (k : String) : Option String :=
  (args.find? (fun kv => kv.1 == k)).map (fun kv => kv.2)

/-- The external collaborators of the application, bundled: the decision
oracle (indexed by step), the code-producing oracle and the sandbox
executor (indexed by step and attempt), the human channel (indexed by
step), and the pydantic file-set serializer. -/
structure Oracles where
  orchestrator : Nat → OrchestratorInput → OrchestratorOutput
  codeAgent : Nat → Nat → CodeAgentInput → CodeAgentOutput
  sandboxExec : Nat → Nat → List CodeFile → String → ExecutionResult
  humanAgent : Nat → String → String
  dumpFiles : CodeAgentOutput → String

/-- An exception escaping a dispatch branch in `Application.run`: a
`KeyError` from a missing dictionary key, or an `AttributeError` from
serializing an absent latest code. -/
inductive StepError where
  | keyError (key : String)
  | attributeError
deriving Repr, DecidableEq

/-- What one dispatched action leaves behind: the history entry, whether
the loop continues, and the updated latest code and feedback. -/
structure DispatchResult where
  history_message : String
  continue_loop : Bool
  latest_code : Option CodeAgentOutput
  execution_feedback : Option String
deriving Repr, DecidableEq

/-- The default question substituted by `agent_args.get` in the
`human_agent` branch of `Application.run`. -/
def DEFAULT_QUESTION : String := "I need help. What should I do next?"

/-- The default reason substituted by `agent_args.get` in the `finish`
branch of `Application.run`. -/
def DEFAULT_REASON : String := "Task completed."

/-- The action-dispatch block of `Application.run` (the
`if agent_name == ...` chain), for step `i`.  The `code_agent` branch
reads `agent_args["prompt"]` and `agent_args["command"]` (a missing key
raises `KeyError`), builds the effective command, and runs the retry
cycle; the `human_agent` and `finish` branches substitute defaults for
missing arguments via `dict.get`; any other name records an unknown
action and stops the loop. -/
def dispatchAction (o : Oracles) (i : Nat) (oout : OrchestratorOutput)
    (latest : Option CodeAgentOutput) (feedback : Option String) :
    Except StepError DispatchResult :=
  if oout.agent_name = "code_agent" then
    match lookupArg oout.args "prompt" with
    | none => .error (.keyError "prompt")
    | some prompt =>
      match lookupArg oout.args "command" with
      | none => .error (.keyError "command")
      | some cmd =>
        let command :=
          if cmd ≠ "" then EXECUTION_COMMAND ++ " && " ++ cmd
          else EXECUTION_COMMAND
        let res := handleCodeGenerationAction (o.codeAgent i) (o.sandboxExec i)
          prompt command MAX_CODE_AGENT_ATTEMPTS latest feedback
        match res.1.2.1 with
        | none => .error .attributeError
        | some lc =>
          let files_detail := o.dumpFiles lc
          if res.1.1 then
            .ok ⟨"Action: code_agent. Result: Code executed successfully.\n" ++
                  "Agent's Reasoning: " ++ lc.reasoning ++ "\n" ++
                  "Generated Files:\n" ++ files_detail,
                 true, some lc, none⟩
          else
            .ok ⟨"Action: code_agent. Result: Execution failed after " ++
                  toString MAX_CODE_AGENT_ATTEMPTS ++ " attempts.\n" ++
                  "Agent's Final Reasoning: " ++ lc.reasoning ++ "\n" ++
                  "Final Generated Files:\n" ++ files_detail ++ "\n" ++
                  "Execution Feedback:\n" ++ (res.1.2.2.getD "None"),
                 true, some lc, res.1.2.2⟩
  else if oout.agent_name = "human_agent" then
    let question := (lookupArg oout.args "question").getD DEFAULT_QUESTION
    let answer := o.humanAgent i question
    .ok ⟨"Action: human_agent. Question: " ++ question ++ ". Answer: " ++ answer,
         true, latest, feedback⟩
  else if oout.agent_name = "finish" then
    let reason := (lookupArg oout.args "reason").getD DEFAULT_REASON
    .ok ⟨"Action: finish. Reason: " ++ reason, false, latest, feedback⟩
  else
    .ok ⟨"Action: unknown. Result: An internal error occurred.",
         false, latest, feedback⟩

/-- The loop-carried state of `Application.run`: the objective plus the
mutable fields updated once per completed step. -/
structure LoopState where
  objective : String
  history : List String
  latest_code : Option CodeAgentOutput
  execution_feedback : Option String
deriving Repr, DecidableEq

/-- How a run ends: the orchestrator chose to stop, the step budget ran
out (the `for`-`else` branch), or an exception escaped a step. -/
inductive RunOutcome where
  | finished (s : LoopState)
  | exhausted (s : LoopState)
  | crashed (e : StepError) (s : LoopState)
deriving Repr, DecidableEq

/-- The `for i in range(self.start_step, MAX_ORCHESTRATOR_STEPS + 1)` loop
of `Application.run`: at each step the decision oracle is called with the
objective and the current history, the action is dispatched, the history
entry is appended and the checkpoint state updated.  The first component
of the result is the trace of decision-oracle calls, as (step index,
oracle input) pairs; the first argument is the number of loop iterations
left, the second the current step index. -/
def runLoopAux (o : Oracles) :
    Nat → Nat → LoopState → List (Nat × OrchestratorInput) × RunOutcome
  | 0, _, s => ([], .exhausted s)
  | remaining + 1, i, s =>
      let oin : OrchestratorInput := ⟨s.objective, s.history⟩
      let oout := o.orchestrator i oin
      match dispatchAction o i oout s.latest_code s.execution_feedback with
      | .error e => ([(i, oin)], .crashed e s)
      | .ok d =>
          let s' : LoopState :=
            ⟨s.objective, s.history ++ [d.history_message],
             d.latest_code, d.execution_feedback⟩
          if d.continue_loop then
            let rest := runLoopAux o remaining (i + 1) s'
            ((i, oin) :: rest.1, rest.2)
          else ([(i, oin)], .finished s')

/-- The resumable in-memory state of an `Application` after construction
and `_load_checkpoint`, from `Application.__init__` in `main.py`. -/
structure AppState where
  objective : Option String
  history : List String
  latest_code : Option CodeAgentOutput
  execution_feedback : Option String
  start_step : Nat
deriving Repr, DecidableEq

/-- The state `Application.__init__` builds: empty history, no code, no
feedback, start step 1. -/
def initialAppState (objective : Option String) : AppState :=
  ⟨objective, [], none, none, 1⟩

/-- What is on disk at the checkpoint path when `_load_checkpoint` runs:
no file, an unreadable or schema-violating file, or a stored
checkpoint. -/
inductive CheckpointFile where
  | missing
  | corrupt
  | stored (c : Checkpoint)
deriving Repr, DecidableEq

/-- How `_load_checkpoint` ends: it returns with an (updated or
untouched) application state, or the exception from reading a corrupt
checkpoint propagates. -/
inductive LoadResult where
  | ok (s : AppState)
  | raises
deriving Repr, DecidableEq

/-- `Application._load_checkpoint` from `main.py`: without an explicit
resume request it returns at once.  On resume with no checkpoint file it
logs a warning, falls back to reading `objective.txt` when present, and
returns — the step index and history are left at their fresh-run values.
A corrupt checkpoint makes `Checkpoint.load` raise, and the exception
propagates.  A stored checkpoint replaces the whole state and sets the
start step to the checkpoint step plus one. -/
def loadCheckpoint (resume_from : Option String) (ckpt : CheckpointFile)
    (objectiveTxt : Option String) (s : AppState) : LoadResult :=
  match resume_from with
  | none => .ok s
  | some _ =>
    match ckpt with
    | .missing =>
        match objectiveTxt with
        | some obj => .ok { s with objective := some obj }
        | none => .ok s
    | .corrupt => .raises
    | .stored c =>
        .ok { objective := some c.objective, history := c.history,
              latest_code := c.latest_code,
              execution_feedback := c.execution_feedback,
              start_step := c.orchestrator_step + 1 }

/-- Whether `Application.run` proceeds past the objective guard: `if not
self.objective` treats both an unset and an empty objective as absent. -/
inductive RunResult where
  | noObjective
  | ran (trace : List (Nat × OrchestratorInput)) (outcome : RunOutcome)
deriving Repr, DecidableEq

/-- The body of `Application.run` after `_load_checkpoint`: the objective
guard, then the step loop from `start_step` to `MAX_ORCHESTRATOR_STEPS`
inclusive. -/
def applicationRun (o : Oracles) (s : AppState) : RunResult :=
  match s.objective with
  | none => .noObjective
  | some obj =>
      if obj = "" then .noObjective
      else
        let res := runLoopAux o (MAX_ORCHESTRATOR_STEPS + 1 - s.start_step)
          s.start_step ⟨obj, s.history, s.latest_code, s.execution_feedback⟩
        .ran res.1 res.2

/-- The resume pipeline of `Application.run`: `_load_checkpoint` on the
freshly constructed state, then the run body; a raising load propagates
before any step executes. -/
def resumeRun (o : Oracles) (resume_from : Option String)
    (ckpt : CheckpointFile) (objectiveTxt : Option String)
    (cliObjective : Option String) : Option RunResult :=
  match loadCheckpoint resume_from ckpt objectiveTxt
      (initialAppState cliObjective) with
  | .raises => none
  | .ok s => some (applicationRun o s)

/-- A concrete collaborator bundle for closed instances: the decision
oracle always chooses `finish` with reason "done", code generation
returns an empty file set, execution succeeds, the human answers with the
empty string, and serialization renders the empty string. -/
def constOracles : Oracles where
  orchestrator := fun _ _ => ⟨"finish", [("reason", "done")]⟩
  codeAgent := fun _ _ _ => ⟨[], ""⟩
  sandboxExec := fun _ _ _ _ => ⟨0, "", "", false⟩
  humanAgent := fun _ _ => ""
  dumpFiles := fun _ => ""

/-- The first decision-oracle call of the loop, whatever the dispatch
outcome, is at the starting step index with the starting history. -/
theorem runLoopAux_head (o : Oracles) (r i : Nat) (s : LoopState) :
    ((runLoopAux o (r + 1) i s).1).head? =
      some (i, OrchestratorInput.mk s.objective s.history) := by
  simp only [runLoopAux]
  cases hdisp : dispatchAction o i (o.orchestrator i ⟨s.objective, s.history⟩)
      s.latest_code s.execution_feedback with
  | error e => rfl
  | ok d =>
      by_cases hc : d.continue_loop
      · simp [hc]
      · simp [hc]

/-- C9: when the loop resumes from a stored checkpoint with step index
`S` (with `S + 1` within the step budget and a non-empty objective), the
first executed step is `S + 1`, and the history handed to the decision
oracle on that step is exactly the checkpoint's history list — the same
list, so nothing is duplicated, lost, or reordered. -/
theorem c9_resume_continuity (o : Oracles) (rd : String)
    (objTxt cliObj : Option String) (c : Checkpoint)
    (hS : c.orchestrator_step + 1 ≤ MAX_ORCHESTRATOR_STEPS)
    (hobj : c.objective ≠ "") :
    ∃ (tr : List (Nat × OrchestratorInput)) (out : RunOutcome),
      resumeRun o (some rd) (.stored c) objTxt cliObj = some (.ran tr out) ∧
      tr.head? = some (c.orchestrator_step + 1,
        OrchestratorInput.mk c.objective c.history) := by
  have hload : resumeRun o (some rd) (.stored c) objTxt cliObj =
      some (applicationRun o ⟨some c.objective, c.history, c.latest_code,
        c.execution_feedback, c.orchestrator_step + 1⟩) := rfl
  have happ : applicationRun o ⟨some c.objective, c.history, c.latest_code,
      c.execution_feedback, c.orchestrator_step + 1⟩ =
      .ran (runLoopAux o (MAX_ORCHESTRATOR_STEPS + 1 - (c.orchestrator_step + 1))
          (c.orchestrator_step + 1)
          ⟨c.objective, c.history, c.latest_code, c.execution_feedback⟩).1
        (runLoopAux o (MAX_ORCHESTRATOR_STEPS + 1 - (c.orchestrator_step + 1))
          (c.orchestrator_step + 1)
          ⟨c.objective, c.history, c.latest_code, c.execution_feedback⟩).2 := by
    dsimp only [applicationRun]
    rw [if_neg hobj]
  obtain ⟨r, hr⟩ : ∃ r,
      MAX_ORCHESTRATOR_STEPS + 1 - (c.orchestrator_step + 1) = r + 1 := by
    refine ⟨MAX_ORCHESTRATOR_STEPS - (c.orchestrator_step + 1), ?_⟩
    unfold MAX_ORCHESTRATOR_STEPS at hS ⊢
    omega
  refine ⟨_, _, by rw [hload, happ], ?_⟩
  rw [hr]
  exact runLoopAux_head o r (c.orchestrator_step + 1)
    ⟨c.objective, c.history, c.latest_code, c.execution_feedback⟩

/-- C9 witness: resuming from a concrete checkpoint with step index 3
executes step 4 first, with exactly the checkpoint's history. -/
theorem c9_witness :
    ∃ (tr : List (Nat × OrchestratorInput)) (out : RunOutcome),
      resumeRun constOracles (some "runs/run_a")
        (.stored ⟨"obj", ["step one entry"], none, none, 3⟩) none none =
        some (.ran tr out) ∧
      tr.head? = some (4, OrchestratorInput.mk "obj" ["step one entry"]) :=
  c9_resume_continuity constOracles "runs/run_a" none none
    ⟨"obj", ["step one entry"], none, none, 3⟩ (by decide) (by decide)

/-- C2 (counterexample): with a resume explicitly requested, a missing
checkpoint file, and an `objective.txt` on disk, the run does not fault:
it silently starts fresh — the first executed step is step 1 and the
decision oracle receives an empty history. -/
theorem c2_counterexample :
    resumeRun constOracles (some "runs/run_a") .missing (some "obj") none =
      some (.ran [(1, OrchestratorInput.mk "obj" [])]
        (.finished ⟨"obj", ["Action: finish. Reason: done"], none, none⟩)) := by
  rfl

/-- C2 (amended): on an explicit resume request, a corrupt checkpoint
raises before any step runs (the whole run aborts), but a missing
checkpoint only logs a warning and returns: with `objective.txt` present
the run proceeds fresh — empty history, step index 1 — and with no
objective available the state is left untouched (so the run later aborts
for lack of objective, still without a resume fault). -/
theorem c2_load_fallback (o : Oracles) (rd : String)
    (objTxt cliObj : Option String) :
    (loadCheckpoint (some rd) .corrupt objTxt (initialAppState cliObj) =
      .raises) ∧
    (resumeRun o (some rd) .corrupt objTxt cliObj = none) ∧
    (∀ obj, loadCheckpoint (some rd) .missing (some obj)
        (initialAppState cliObj) =
      .ok ⟨some obj, [], none, none, 1⟩) ∧
    (loadCheckpoint (some rd) .missing none (initialAppState cliObj) =
      .ok (initialAppState cliObj)) :=
  ⟨rfl, rfl, fun _ => rfl, rfl⟩

/-- C6 (counterexample): a `human_agent` action whose arguments lack the
required `question` key is dispatched without any fault: the dispatcher
silently substitutes the default question and proceeds. -/
theorem c6_counterexample :
    dispatchAction constOracles 1 ⟨"human_agent", []⟩ none none =
      .ok ⟨"Action: human_agent. Question: " ++ DEFAULT_QUESTION ++
           ". Answer: ", true, none, none⟩ := by
  rfl

/-- C6 (amended): only the `code_agent` branch faults on missing
arguments — a missing `prompt` or `command` key raises `KeyError`
immediately; the `human_agent` branch silently substitutes a default
question and the `finish` branch a default reason when their argument is
missing, and both proceed normally. -/
theorem c6_missing_args (o : Oracles) (i : Nat)
    (args : List (String × String))
    (latest : Option CodeAgentOutput) (feedback : Option String) :
    (lookupArg args "prompt" = none →
      dispatchAction o i ⟨"code_agent", args⟩ latest feedback =
        .error (.keyError "prompt")) ∧
    (∀ p, lookupArg args "prompt" = some p →
      lookupArg args "command" = none →
      dispatchAction o i ⟨"code_agent", args⟩ latest feedback =
        .error (.keyError "command")) ∧
    (lookupArg args "question" = none →
      dispatchAction o i ⟨"human_agent", args⟩ latest feedback =
        .ok ⟨"Action: human_agent. Question: " ++ DEFAULT_QUESTION ++
             ". Answer: " ++ o.humanAgent i DEFAULT_QUESTION,
             true, latest, feedback⟩) ∧
    (lookupArg args "reason" = none →
      dispatchAction o i ⟨"finish", args⟩ latest feedback =
        .ok ⟨"Action: finish. Reason: " ++ DEFAULT_REASON,
             false, latest, feedback⟩) := by
  refine ⟨?_, ?_, ?_, ?_⟩
  · intro h
    simp [dispatchAction, h]
  · intro p hp hc
    simp [dispatchAction, hp, hc]
  · intro h
    simp [dispatchAction, h]
  · intro h
    simp [dispatchAction, h]

/-- C6 witness: at concrete argument dictionaries, a missing `prompt` and
a missing `command` raise `KeyError`, while a missing `question` and a
missing `reason` are silently defaulted. -/
theorem c6_witness :
    (dispatchAction constOracles 2 ⟨"code_agent", []⟩ none none =
      .error (.keyError "prompt")) ∧
    (dispatchAction constOracles 2 ⟨"code_agent", [("prompt", "do x")]⟩
        none none = .error (.keyError "command")) ∧
    (dispatchAction constOracles 2 ⟨"human_agent", [("other", "v")]⟩
        none none =
      .ok ⟨"Action: human_agent. Question: " ++ DEFAULT_QUESTION ++
           ". Answer: " ++ constOracles.humanAgent 2 DEFAULT_QUESTION,
           true, none, none⟩) ∧
    (dispatchAction constOracles 2 ⟨"finish", []⟩ none none =
      .ok ⟨"Action: finish. Reason: " ++ DEFAULT_REASON,
           false, none, none⟩) :=
  ⟨(c6_missing_args constOracles 2 [] none none).1 rfl,
   (c6_missing_args constOracles 2 [("prompt", "do x")] none none).2.1
     "do x" rfl rfl,
   (c6_missing_args constOracles 2 [("other", "v")] none none).2.2.1 rfl,
   (c6_missing_args constOracles 2 [] none none).2.2.2 rfl⟩

end CodingAgent
